import Mathlib

/-!
Verification of the feature-toggle cascade engine
(src/scripts/feature-toggle-cascade.sql).

The SQL defines a snapshot table `feature_deactivated_items`, a trigger
function `handle_feature_toggle_cascade` fired AFTER UPDATE on
`company_features` whenever the `is_active` flag changes, and the trigger
`trigger_feature_toggle_cascade` guarding it.  We give a shallow embedding:
the four target collections (`coupons`, `promotions`, `delivery_drivers`,
`tables`) and the snapshot table are lists in a `Store`; each SQL statement
of the function body becomes a pure list transformation; the whole trigger
function becomes a pure `Store → Store` function parameterised by the values
the function reads from the row and from `system_features`.
-/

/-- A row of one of the single-flag target collections (`coupons`,
    `promotions`, `tables`): primary key `id`, tenant `company_id`, the
    activation flag `is_active`, and `other` standing for all remaining
    columns the cascade never mentions. -/
structure TargetRecord where
  id : Nat
  company_id : Nat
  is_active : Bool
  other : Nat
deriving DecidableEq

/-- A row of `delivery_drivers`: like `TargetRecord` but with the second
    activation flag `is_available` that the deactivation branch also
    clears. -/
structure DriverRecord where
  id : Nat
  company_id : Nat
  is_active : Bool
  is_available : Bool
  other : Nat
deriving DecidableEq

/-- A row of `feature_deactivated_items` (the snapshot table):
    `UNIQUE(company_id, feature_key, table_name, item_id)`, plus the
    `deactivated_at` timestamp column. -/
structure SnapshotEntry where
  company_id : Nat
  feature_key : String
  table_name : String
  item_id : Nat
  deactivated_at : Nat
deriving DecidableEq

/-- The database state the cascade touches: the four target collections and
    the snapshot table. -/
structure Store where
  coupons : List TargetRecord
  promotions : List TargetRecord
  delivery_drivers : List DriverRecord
  tables : List TargetRecord
  feature_deactivated_items : List SnapshotEntry
deriving DecidableEq

/-- The `ON CONFLICT` key of the snapshot table:
    `(company_id, feature_key, table_name, item_id)`. -/
def snapshotKeyMatches (e : SnapshotEntry) (c : Nat) (f tbl : String) (item : Nat) : Bool :=
  e.company_id == c && e.feature_key == f && e.table_name == tbl && e.item_id == item

/-- One row of the `INSERT ... ON CONFLICT (...) DO NOTHING`: append the
    entry unless a row with the same unique key already exists. -/
def insertSnapshotOne (items : List SnapshotEntry) (c : Nat) (f tbl : String)
    (item now : Nat) : List SnapshotEntry :=
  if items.any (fun e => snapshotKeyMatches e c f tbl item) then items
  else items ++ [⟨c, f, tbl, item, now⟩]

/-- The whole `INSERT INTO feature_deactivated_items ... SELECT ...
    ON CONFLICT DO NOTHING`, one conditional insert per selected id. -/
def insertSnapshotMany (items : List SnapshotEntry) (c : Nat) (f tbl : String)
    (ids : List Nat) (now : Nat) : List SnapshotEntry :=
  ids.foldl (fun acc i => insertSnapshotOne acc c f tbl i now) items

/-- `SELECT id FROM <collection> WHERE company_id = c AND is_active = true`. -/
def activeIds (recs : List TargetRecord) (c : Nat) : List Nat :=
  (recs.filter (fun r => r.company_id == c && r.is_active)).map TargetRecord.id

/-- `SELECT id FROM delivery_drivers WHERE company_id = c AND is_active = true`. -/
def driverActiveIds (recs : List DriverRecord) (c : Nat) : List Nat :=
  (recs.filter (fun r => r.company_id == c && r.is_active)).map DriverRecord.id

/-- `UPDATE <collection> SET is_active = false
     WHERE company_id = c AND is_active = true`. -/
def deactivateRecs (recs : List TargetRecord) (c : Nat) : List TargetRecord :=
  recs.map (fun r => if r.company_id == c && r.is_active then { r with is_active := false } else r)

/-- `UPDATE delivery_drivers SET is_active = false, is_available = false
     WHERE company_id = c AND is_active = true`. -/
def deactivateDrivers (recs : List DriverRecord) (c : Nat) : List DriverRecord :=
  recs.map (fun r =>
    if r.company_id == c && r.is_active then
      { r with is_active := false, is_available := false }
    else r)

/-- `SELECT item_id FROM feature_deactivated_items WHERE company_id = c AND
     feature_key = f AND table_name = tbl`. -/
def snapshotIds (items : List SnapshotEntry) (c : Nat) (f tbl : String) : List Nat :=
  (items.filter (fun e =>
    e.company_id == c && e.feature_key == f && e.table_name == tbl)).map SnapshotEntry.item_id

/-- `UPDATE <collection> SET is_active = true WHERE id IN (<ids>)` — note the
    restoration UPDATE filters only on `id`, with no `company_id` clause. -/
def restoreRecs (recs : List TargetRecord) (ids : List Nat) : List TargetRecord :=
  recs.map (fun r => if ids.contains r.id then { r with is_active := true } else r)

/-- `UPDATE delivery_drivers SET is_active = true WHERE id IN (<ids>)` — the
    drivers restoration sets `is_active` only; `is_available` is not touched. -/
def restoreDrivers (recs : List DriverRecord) (ids : List Nat) : List DriverRecord :=
  recs.map (fun r => if ids.contains r.id then { r with is_active := true } else r)

/-- `DELETE FROM feature_deactivated_items WHERE company_id = c AND
     feature_key = f AND table_name = tbl`. -/
def clearSnapshot (items : List SnapshotEntry) (c : Nat) (f tbl : String) : List SnapshotEntry :=
  items.filter (fun e =>
    !(e.company_id == c && e.feature_key == f && e.table_name == tbl))

/-- The `CASE v_feature_key` dispatch of the DEACTIVATING branch
    (`OLD.is_active = true AND NEW.is_active = false`): snapshot the active
    records of the tenant, then clear their activation attributes. -/
def cascadeDeactivate (f : String) (c : Nat) (now : Nat) (s : Store) : Store :=
  if f = "coupons" then
    { s with
      feature_deactivated_items :=
        insertSnapshotMany s.feature_deactivated_items c f "coupons" (activeIds s.coupons c) now
      coupons := deactivateRecs s.coupons c }
  else if f = "promotions" then
    { s with
      feature_deactivated_items :=
        insertSnapshotMany s.feature_deactivated_items c f "promotions"
          (activeIds s.promotions c) now
      promotions := deactivateRecs s.promotions c }
  else if f = "drivers" then
    { s with
      feature_deactivated_items :=
        insertSnapshotMany s.feature_deactivated_items c f "delivery_drivers"
          (driverActiveIds s.delivery_drivers c) now
      delivery_drivers := deactivateDrivers s.delivery_drivers c }
  else if f = "tables" then
    { s with
      feature_deactivated_items :=
        insertSnapshotMany s.feature_deactivated_items c f "tables" (activeIds s.tables c) now
      tables := deactivateRecs s.tables c }
  else s

/-- The `CASE v_feature_key` dispatch of the REACTIVATING branch
    (`OLD.is_active = false AND NEW.is_active = true`): restore the
    snapshotted ids, then delete the snapshot rows for the key. -/
def cascadeReactivate (f : String) (c : Nat) (s : Store) : Store :=
  if f = "coupons" then
    { s with
      coupons := restoreRecs s.coupons (snapshotIds s.feature_deactivated_items c f "coupons")
      feature_deactivated_items := clearSnapshot s.feature_deactivated_items c f "coupons" }
  else if f = "promotions" then
    { s with
      promotions :=
        restoreRecs s.promotions (snapshotIds s.feature_deactivated_items c f "promotions")
      feature_deactivated_items := clearSnapshot s.feature_deactivated_items c f "promotions" }
  else if f = "drivers" then
    { s with
      delivery_drivers :=
        restoreDrivers s.delivery_drivers
          (snapshotIds s.feature_deactivated_items c f "delivery_drivers")
      feature_deactivated_items :=
        clearSnapshot s.feature_deactivated_items c f "delivery_drivers" }
  else if f = "tables" then
    { s with
      tables := restoreRecs s.tables (snapshotIds s.feature_deactivated_items c f "tables")
      feature_deactivated_items := clearSnapshot s.feature_deactivated_items c f "tables" }
  else s

/-- The body of `handle_feature_toggle_cascade`.  `feature_key` is the result
    of the `SELECT key FROM system_features` lookup (NULL-able), `company_id`
    the coalesced row tenant (NULL-able); if either is NULL the function
    returns without cascading.  `old_active`/`new_active` are
    `OLD.is_active`/`NEW.is_active` of the `company_features` row. -/
def handle_feature_toggle_cascade (feature_key : Option String) (company_id : Option Nat)
    (old_active new_active : Bool) (now : Nat) (s : Store) : Store :=
  match feature_key, company_id with
  | some f, some c =>
    if old_active && !new_active then cascadeDeactivate f c now s
    else if !old_active && new_active then cascadeReactivate f c s
    else s
  | _, _ => s

/-- The trigger `trigger_feature_toggle_cascade`: fires only
    `WHEN (OLD.is_active IS DISTINCT FROM NEW.is_active)`. -/
def trigger_feature_toggle_cascade (feature_key : Option String) (company_id : Option Nat)
    (old_active new_active : Bool) (now : Nat) (s : Store) : Store :=
  if old_active ≠ new_active then
    handle_feature_toggle_cascade feature_key company_id old_active new_active now s
  else s

example :
    handle_feature_toggle_cascade (some "coupons") (some 1) true false 5
      ⟨[⟨10, 1, true, 0⟩, ⟨11, 2, true, 0⟩], [], [], [], []⟩ =
    ⟨[⟨10, 1, false, 0⟩, ⟨11, 2, true, 0⟩], [], [], [],
      [⟨1, "coupons", "coupons", 10, 5⟩]⟩ := by decide

/-! ### Snapshot-membership lemmas -/

lemma snapshotKeyMatches_iff (e : SnapshotEntry) (c : Nat) (f tbl : String) (i : Nat) :
    snapshotKeyMatches e c f tbl i = true ↔
      e.company_id = c ∧ e.feature_key = f ∧ e.table_name = tbl ∧ e.item_id = i := by
  simp [snapshotKeyMatches, and_assoc]

lemma mem_snapshotIds_iff (items : List SnapshotEntry) (c : Nat) (f tbl : String) (i : Nat) :
    i ∈ snapshotIds items c f tbl ↔
      ∃ e ∈ items, snapshotKeyMatches e c f tbl i = true := by
  simp only [snapshotIds, List.mem_map, List.mem_filter, snapshotKeyMatches_iff,
    Bool.and_eq_true, beq_iff_eq, and_assoc]

lemma mem_snapshotIds_insertSnapshotOne_self (items : List SnapshotEntry) (c : Nat)
    (f tbl : String) (i now : Nat) :
    i ∈ snapshotIds (insertSnapshotOne items c f tbl i now) c f tbl := by
  unfold insertSnapshotOne
  split
  · rename_i h
    obtain ⟨e, he, hp⟩ := List.any_eq_true.mp h
    exact (mem_snapshotIds_iff ..).mpr ⟨e, he, hp⟩
  · refine (mem_snapshotIds_iff ..).mpr ⟨⟨c, f, tbl, i, now⟩, ?_, ?_⟩
    · simp
    · simp [snapshotKeyMatches]

lemma mem_snapshotIds_insertSnapshotOne_mono (items : List SnapshotEntry)
    (c c' : Nat) (f tbl f' tbl' : String) (i j now : Nat)
    (h : i ∈ snapshotIds items c f tbl) :
    i ∈ snapshotIds (insertSnapshotOne items c' f' tbl' j now) c f tbl := by
  unfold insertSnapshotOne
  split
  · exact h
  · obtain ⟨e, he, hk⟩ := (mem_snapshotIds_iff ..).mp h
    exact (mem_snapshotIds_iff ..).mpr ⟨e, by simp [he], hk⟩

lemma insertSnapshotMany_cons (items : List SnapshotEntry) (c : Nat) (f tbl : String)
    (a : Nat) (as : List Nat) (now : Nat) :
    insertSnapshotMany items c f tbl (a :: as) now =
      insertSnapshotMany (insertSnapshotOne items c f tbl a now) c f tbl as now := rfl

lemma mem_snapshotIds_insertSnapshotMany_mono (items : List SnapshotEntry)
    (c c' : Nat) (f tbl f' tbl' : String) (i : Nat) (ids : List Nat) (now : Nat)
    (h : i ∈ snapshotIds items c f tbl) :
    i ∈ snapshotIds (insertSnapshotMany items c' f' tbl' ids now) c f tbl := by
  induction ids generalizing items with
  | nil => exact h
  | cons a as ih =>
    rw [insertSnapshotMany_cons]
    exact ih _ (mem_snapshotIds_insertSnapshotOne_mono _ _ _ _ _ _ _ _ _ _ h)

lemma mem_snapshotIds_insertSnapshotMany (items : List SnapshotEntry) (c : Nat)
    (f tbl : String) (i : Nat) (ids : List Nat) (now : Nat) (h : i ∈ ids) :
    i ∈ snapshotIds (insertSnapshotMany items c f tbl ids now) c f tbl := by
  induction ids generalizing items with
  | nil => cases h
  | cons a as ih =>
    rw [insertSnapshotMany_cons]
    rcases List.mem_cons.mp h with rfl | h2
    · exact mem_snapshotIds_insertSnapshotMany_mono _ _ _ _ _ _ _ _ _ _
        (mem_snapshotIds_insertSnapshotOne_self ..)
    · exact ih (insertSnapshotOne items c f tbl a now) h2

lemma mem_activeIds (recs : List TargetRecord) (c : Nat) (r : TargetRecord)
    (hr : r ∈ recs) (hc : r.company_id = c) (ha : r.is_active = true) :
    r.id ∈ activeIds recs c := by
  simp only [activeIds, List.mem_map, List.mem_filter]
  exact ⟨r, ⟨hr, by simp [hc, ha]⟩, rfl⟩

lemma mem_driverActiveIds (recs : List DriverRecord) (c : Nat) (r : DriverRecord)
    (hr : r ∈ recs) (hc : r.company_id = c) (ha : r.is_active = true) :
    r.id ∈ driverActiveIds recs c := by
  simp only [driverActiveIds, List.mem_map, List.mem_filter]
  exact ⟨r, ⟨hr, by simp [hc, ha]⟩, rfl⟩

/-! ### Pointwise lemmas about the collection updates -/

lemma length_deactivateRecs (recs : List TargetRecord) (c : Nat) :
    (deactivateRecs recs c).length = recs.length := by
  simp [deactivateRecs]

lemma length_restoreRecs (recs : List TargetRecord) (ids : List Nat) :
    (restoreRecs recs ids).length = recs.length := by
  simp [restoreRecs]

lemma length_deactivateDrivers (recs : List DriverRecord) (c : Nat) :
    (deactivateDrivers recs c).length = recs.length := by
  simp [deactivateDrivers]

lemma length_restoreDrivers (recs : List DriverRecord) (ids : List Nat) :
    (restoreDrivers recs ids).length = recs.length := by
  simp [restoreDrivers]

lemma deactivateRecs_getElem (recs : List TargetRecord) (c : Nat) (i : Nat)
    (hi : i < recs.length) (hj : i < (deactivateRecs recs c).length) :
    (deactivateRecs recs c)[i] =
      if recs[i].company_id == c && recs[i].is_active then
        { recs[i] with is_active := false }
      else recs[i] := by
  simp [deactivateRecs]

lemma restoreRecs_getElem (recs : List TargetRecord) (ids : List Nat) (i : Nat)
    (hi : i < recs.length) (hj : i < (restoreRecs recs ids).length) :
    (restoreRecs recs ids)[i] =
      if ids.contains recs[i].id then { recs[i] with is_active := true }
      else recs[i] := by
  simp [restoreRecs]

lemma deactivateDrivers_getElem (recs : List DriverRecord) (c : Nat) (i : Nat)
    (hi : i < recs.length) (hj : i < (deactivateDrivers recs c).length) :
    (deactivateDrivers recs c)[i] =
      if recs[i].company_id == c && recs[i].is_active then
        { recs[i] with is_active := false, is_available := false }
      else recs[i] := by
  simp [deactivateDrivers]

lemma restoreDrivers_getElem (recs : List DriverRecord) (ids : List Nat) (i : Nat)
    (hi : i < recs.length) (hj : i < (restoreDrivers recs ids).length) :
    (restoreDrivers recs ids)[i] =
      if ids.contains recs[i].id then { recs[i] with is_active := true }
      else recs[i] := by
  simp [restoreDrivers]

/-! ### Clearing lemmas -/

lemma filter_clearSnapshot (items : List SnapshotEntry) (c : Nat) (f tbl : String) :
    (clearSnapshot items c f tbl).filter
      (fun e => e.company_id == c && e.feature_key == f && e.table_name == tbl) = [] := by
  rw [List.filter_eq_nil_iff]
  intro e he
  have h2 := (List.mem_filter.mp he).2
  simp only [Bool.and_eq_true, beq_iff_eq, not_and]
  intro ha hb
  simp [ha.1, ha.2, hb] at h2

lemma snapshotIds_clearSnapshot (items : List SnapshotEntry) (c : Nat) (f tbl : String) :
    snapshotIds (clearSnapshot items c f tbl) c f tbl = [] := by
  rw [snapshotIds, filter_clearSnapshot]
  rfl

/-! ### Unfolding the handler at the four registered feature keys -/

lemma handle_deact_coupons (s : Store) (c now : Nat) :
    handle_feature_toggle_cascade (some "coupons") (some c) true false now s =
    { s with
      feature_deactivated_items := insertSnapshotMany s.feature_deactivated_items c "coupons"
        "coupons" (activeIds s.coupons c) now
      coupons := deactivateRecs s.coupons c } := rfl

lemma handle_deact_promotions (s : Store) (c now : Nat) :
    handle_feature_toggle_cascade (some "promotions") (some c) true false now s =
    { s with
      feature_deactivated_items := insertSnapshotMany s.feature_deactivated_items c "promotions"
        "promotions" (activeIds s.promotions c) now
      promotions := deactivateRecs s.promotions c } := rfl

lemma handle_deact_drivers (s : Store) (c now : Nat) :
    handle_feature_toggle_cascade (some "drivers") (some c) true false now s =
    { s with
      feature_deactivated_items := insertSnapshotMany s.feature_deactivated_items c "drivers"
        "delivery_drivers" (driverActiveIds s.delivery_drivers c) now
      delivery_drivers := deactivateDrivers s.delivery_drivers c } := rfl

lemma handle_deact_tables (s : Store) (c now : Nat) :
    handle_feature_toggle_cascade (some "tables") (some c) true false now s =
    { s with
      feature_deactivated_items := insertSnapshotMany s.feature_deactivated_items c "tables"
        "tables" (activeIds s.tables c) now
      tables := deactivateRecs s.tables c } := rfl

lemma handle_react_coupons (s : Store) (c now : Nat) :
    handle_feature_toggle_cascade (some "coupons") (some c) false true now s =
    { s with
      coupons := restoreRecs s.coupons
        (snapshotIds s.feature_deactivated_items c "coupons" "coupons")
      feature_deactivated_items :=
        clearSnapshot s.feature_deactivated_items c "coupons" "coupons" } := rfl

lemma handle_react_promotions (s : Store) (c now : Nat) :
    handle_feature_toggle_cascade (some "promotions") (some c) false true now s =
    { s with
      promotions := restoreRecs s.promotions
        (snapshotIds s.feature_deactivated_items c "promotions" "promotions")
      feature_deactivated_items :=
        clearSnapshot s.feature_deactivated_items c "promotions" "promotions" } := rfl

lemma handle_react_drivers (s : Store) (c now : Nat) :
    handle_feature_toggle_cascade (some "drivers") (some c) false true now s =
    { s with
      delivery_drivers := restoreDrivers s.delivery_drivers
        (snapshotIds s.feature_deactivated_items c "drivers" "delivery_drivers")
      feature_deactivated_items :=
        clearSnapshot s.feature_deactivated_items c "drivers" "delivery_drivers" } := rfl

lemma handle_react_tables (s : Store) (c now : Nat) :
    handle_feature_toggle_cascade (some "tables") (some c) false true now s =
    { s with
      tables := restoreRecs s.tables
        (snapshotIds s.feature_deactivated_items c "tables" "tables")
      feature_deactivated_items :=
        clearSnapshot s.feature_deactivated_items c "tables" "tables" } := rfl

lemma handle_unregistered_deact (f : String) (c now : Nat) (s : Store)
    (h1 : f ≠ "coupons") (h2 : f ≠ "promotions") (h3 : f ≠ "drivers") (h4 : f ≠ "tables") :
    handle_feature_toggle_cascade (some f) (some c) true false now s = s := by
  show cascadeDeactivate f c now s = s
  rw [cascadeDeactivate, if_neg h1, if_neg h2, if_neg h3, if_neg h4]

lemma handle_unregistered_react (f : String) (c now : Nat) (s : Store)
    (h1 : f ≠ "coupons") (h2 : f ≠ "promotions") (h3 : f ≠ "drivers") (h4 : f ≠ "tables") :
    handle_feature_toggle_cascade (some f) (some c) false true now s = s := by
  show cascadeReactivate f c s = s
  rw [cascadeReactivate, if_neg h1, if_neg h2, if_neg h3, if_neg h4]

/-! ### Round-trip core lemmas -/

lemma roundtrip_rec_active (recs : List TargetRecord) (items : List SnapshotEntry)
    (c now : Nat) (f tbl : String) (i : Nat) (hi : i < recs.length)
    (hc : recs[i].company_id = c) (ha : recs[i].is_active = true)
    (hj : i < (restoreRecs (deactivateRecs recs c)
      (snapshotIds (insertSnapshotMany items c f tbl (activeIds recs c) now) c f tbl)).length) :
    ((restoreRecs (deactivateRecs recs c)
      (snapshotIds (insertSnapshotMany items c f tbl (activeIds recs c) now)
        c f tbl))[i]).is_active = true := by
  have hid : recs[i].id ∈
      snapshotIds (insertSnapshotMany items c f tbl (activeIds recs c) now) c f tbl :=
    mem_snapshotIds_insertSnapshotMany _ _ _ _ _ _ _
      (mem_activeIds _ _ _ (List.getElem_mem _) hc ha)
  simp [restoreRecs, deactivateRecs, hc, ha, List.elem_iff, hid]

lemma roundtrip_driver_active (recs : List DriverRecord) (items : List SnapshotEntry)
    (c now : Nat) (f tbl : String) (i : Nat) (hi : i < recs.length)
    (hc : recs[i].company_id = c) (ha : recs[i].is_active = true)
    (hj : i < (restoreDrivers (deactivateDrivers recs c)
      (snapshotIds (insertSnapshotMany items c f tbl (driverActiveIds recs c) now)
        c f tbl)).length) :
    ((restoreDrivers (deactivateDrivers recs c)
      (snapshotIds (insertSnapshotMany items c f tbl (driverActiveIds recs c) now)
        c f tbl))[i]).is_active = true ∧
    ((restoreDrivers (deactivateDrivers recs c)
      (snapshotIds (insertSnapshotMany items c f tbl (driverActiveIds recs c) now)
        c f tbl))[i]).is_available = false := by
  have hid : recs[i].id ∈
      snapshotIds (insertSnapshotMany items c f tbl (driverActiveIds recs c) now) c f tbl :=
    mem_snapshotIds_insertSnapshotMany _ _ _ _ _ _ _
      (mem_driverActiveIds _ _ _ (List.getElem_mem _) hc ha)
  constructor <;>
    simp [restoreDrivers, deactivateDrivers, hc, ha, List.elem_iff, hid]

lemma restoreRecs_getElem_of_not_mem (recs : List TargetRecord) (ids : List Nat) (i : Nat)
    (hi : i < recs.length) (h : recs[i].id ∉ ids)
    (hj : i < (restoreRecs recs ids).length) :
    (restoreRecs recs ids)[i] = recs[i] := by
  have hcont : ids.contains recs[i].id = false := by
    simp [List.elem_iff]
    exact h
  simp only [restoreRecs, List.getElem_map, hcont]
  rfl

lemma restoreDrivers_getElem_of_not_mem (recs : List DriverRecord) (ids : List Nat) (i : Nat)
    (hi : i < recs.length) (h : recs[i].id ∉ ids)
    (hj : i < (restoreDrivers recs ids).length) :
    (restoreDrivers recs ids)[i] = recs[i] := by
  have hcont : ids.contains recs[i].id = false := by
    simp [List.elem_iff]
    exact h
  simp only [restoreDrivers, List.getElem_map, hcont]
  rfl

lemma deactivateRecs_getElem_active (recs : List TargetRecord) (c : Nat) (i : Nat)
    (hi : i < recs.length) (hc : recs[i].company_id = c) (ha : recs[i].is_active = true)
    (hj : i < (deactivateRecs recs c).length) :
    ((deactivateRecs recs c)[i]).is_active = false := by
  simp [deactivateRecs, hc, ha]

lemma deactivateDrivers_getElem_active (recs : List DriverRecord) (c : Nat) (i : Nat)
    (hi : i < recs.length) (hc : recs[i].company_id = c) (ha : recs[i].is_active = true)
    (hj : i < (deactivateDrivers recs c).length) :
    ((deactivateDrivers recs c)[i]).is_active = false := by
  simp [deactivateDrivers, hc, ha]

/-! ### Idempotence lemmas -/

lemma filter_active_deactivateRecs (recs : List TargetRecord) (c : Nat) :
    (deactivateRecs recs c).filter (fun r => r.company_id == c && r.is_active) = [] := by
  rw [List.filter_eq_nil_iff]
  intro r hr
  simp only [deactivateRecs, List.mem_map] at hr
  obtain ⟨r0, hr0, rfl⟩ := hr
  by_cases h : (r0.company_id == c && r0.is_active) = true
  · simp [h]
  · simp only [Bool.not_eq_true] at h
    simp [h]

lemma activeIds_deactivateRecs (recs : List TargetRecord) (c : Nat) :
    activeIds (deactivateRecs recs c) c = [] := by
  unfold activeIds
  rw [filter_active_deactivateRecs]
  rfl

lemma filter_active_deactivateDrivers (recs : List DriverRecord) (c : Nat) :
    (deactivateDrivers recs c).filter (fun r => r.company_id == c && r.is_active) = [] := by
  rw [List.filter_eq_nil_iff]
  intro r hr
  simp only [deactivateDrivers, List.mem_map] at hr
  obtain ⟨r0, hr0, rfl⟩ := hr
  by_cases h : (r0.company_id == c && r0.is_active) = true
  · simp [h]
  · simp only [Bool.not_eq_true] at h
    simp [h]

lemma driverActiveIds_deactivateDrivers (recs : List DriverRecord) (c : Nat) :
    driverActiveIds (deactivateDrivers recs c) c = [] := by
  unfold driverActiveIds
  rw [filter_active_deactivateDrivers]
  rfl

lemma insertSnapshotMany_nil (items : List SnapshotEntry) (c : Nat) (f tbl : String)
    (now : Nat) : insertSnapshotMany items c f tbl [] now = items := rfl

lemma deactivateRecs_idem (recs : List TargetRecord) (c : Nat) :
    deactivateRecs (deactivateRecs recs c) c = deactivateRecs recs c := by
  unfold deactivateRecs
  rw [List.map_map]
  apply List.map_congr_left
  intro r _
  by_cases h : (r.company_id == c && r.is_active) = true
  · simp [Function.comp, h]
  · simp only [Bool.not_eq_true] at h
    simp [Function.comp, h]

lemma deactivateDrivers_idem (recs : List DriverRecord) (c : Nat) :
    deactivateDrivers (deactivateDrivers recs c) c = deactivateDrivers recs c := by
  unfold deactivateDrivers
  rw [List.map_map]
  apply List.map_congr_left
  intro r _
  by_cases h : (r.company_id == c && r.is_active) = true
  · simp [Function.comp, h]
  · simp only [Bool.not_eq_true] at h
    simp [Function.comp, h]

lemma restoreRecs_nil (recs : List TargetRecord) : restoreRecs recs [] = recs := by
  simp [restoreRecs]

lemma restoreDrivers_nil (recs : List DriverRecord) : restoreDrivers recs [] = recs := by
  simp [restoreDrivers]

lemma clearSnapshot_idem (items : List SnapshotEntry) (c : Nat) (f tbl : String) :
    clearSnapshot (clearSnapshot items c f tbl) c f tbl = clearSnapshot items c f tbl := by
  unfold clearSnapshot
  induction items with
  | nil => rfl
  | cons a as ih =>
    rw [List.filter_cons]
    by_cases h : (!(a.company_id == c && a.feature_key == f && a.table_name == tbl)) = true
    · rw [if_pos h, List.filter_cons, if_pos h, ih]
    · rw [if_neg h, ih]

/-- The DEACTIVATING transition (`is_active`: true → false) of feature `f`
    for tenant `c`, as handled by the trigger function. -/
def deactivate (f : String) (c now : Nat) (s : Store) : Store :=
  handle_feature_toggle_cascade (some f) (some c) true false now s

/-- The REACTIVATING transition (`is_active`: false → true) of feature `f`
    for tenant `c`, as handled by the trigger function. -/
def reactivate (f : String) (c now : Nat) (s : Store) : Store :=
  handle_feature_toggle_cascade (some f) (some c) false true now s

/-- A full DEACTIVATING-then-REACTIVATING cycle for feature `f` of tenant
    `c`, with no intervening changes. -/
def roundTrip (f : String) (c now now2 : Nat) (s : Store) : Store :=
  handle_feature_toggle_cascade (some f) (some c) false true now2
    (handle_feature_toggle_cascade (some f) (some c) true false now s)

lemma roundTrip_coupons (s : Store) (c now now2 : Nat) :
    roundTrip "coupons" c now now2 s =
    { s with
      coupons := restoreRecs (deactivateRecs s.coupons c)
        (snapshotIds (insertSnapshotMany s.feature_deactivated_items c "coupons" "coupons"
          (activeIds s.coupons c) now) c "coupons" "coupons")
      feature_deactivated_items := clearSnapshot (insertSnapshotMany s.feature_deactivated_items
        c "coupons" "coupons" (activeIds s.coupons c) now) c "coupons" "coupons" } := rfl

lemma roundTrip_promotions (s : Store) (c now now2 : Nat) :
    roundTrip "promotions" c now now2 s =
    { s with
      promotions := restoreRecs (deactivateRecs s.promotions c)
        (snapshotIds (insertSnapshotMany s.feature_deactivated_items c "promotions" "promotions"
          (activeIds s.promotions c) now) c "promotions" "promotions")
      feature_deactivated_items := clearSnapshot (insertSnapshotMany s.feature_deactivated_items
        c "promotions" "promotions" (activeIds s.promotions c) now)
        c "promotions" "promotions" } := rfl

lemma roundTrip_drivers (s : Store) (c now now2 : Nat) :
    roundTrip "drivers" c now now2 s =
    { s with
      delivery_drivers := restoreDrivers (deactivateDrivers s.delivery_drivers c)
        (snapshotIds (insertSnapshotMany s.feature_deactivated_items c "drivers"
          "delivery_drivers" (driverActiveIds s.delivery_drivers c) now)
          c "drivers" "delivery_drivers")
      feature_deactivated_items := clearSnapshot (insertSnapshotMany s.feature_deactivated_items
        c "drivers" "delivery_drivers" (driverActiveIds s.delivery_drivers c) now)
        c "drivers" "delivery_drivers" } := rfl

lemma roundTrip_tables (s : Store) (c now now2 : Nat) :
    roundTrip "tables" c now now2 s =
    { s with
      tables := restoreRecs (deactivateRecs s.tables c)
        (snapshotIds (insertSnapshotMany s.feature_deactivated_items c "tables" "tables"
          (activeIds s.tables c) now) c "tables" "tables")
      feature_deactivated_items := clearSnapshot (insertSnapshotMany s.feature_deactivated_items
        c "tables" "tables" (activeIds s.tables c) now) c "tables" "tables" } := rfl

/-- A sample store used by the concrete witnesses. -/
def sampleStore : Store :=
  ⟨[⟨1, 1, true, 0⟩, ⟨2, 2, true, 0⟩, ⟨3, 1, false, 0⟩],
   [⟨4, 1, true, 0⟩],
   [⟨5, 1, true, true, 0⟩],
   [⟨6, 1, true, 0⟩],
   []⟩

/-- Frame relation on a single-flag collection: same length and, pointwise,
    identity (`id`), tenant (`company_id`) and every non-activation attribute
    (`other`) unchanged — only `is_active` may differ. -/
def RecFrame (before after : List TargetRecord) : Prop :=
  after.length = before.length ∧
  ∀ i, ∀ hi : i < before.length, ∀ hj : i < after.length,
    after[i].id = before[i].id ∧ after[i].company_id = before[i].company_id ∧
    after[i].other = before[i].other

/-- Frame relation on `delivery_drivers`: only the activation attributes
    `is_active` and `is_available` may differ. -/
def DriverFrame (before after : List DriverRecord) : Prop :=
  after.length = before.length ∧
  ∀ i, ∀ hi : i < before.length, ∀ hj : i < after.length,
    after[i].id = before[i].id ∧ after[i].company_id = before[i].company_id ∧
    after[i].other = before[i].other

lemma RecFrame_refl (l : List TargetRecord) : RecFrame l l :=
  ⟨rfl, fun _ _ _ => ⟨rfl, rfl, rfl⟩⟩

lemma DriverFrame_refl (l : List DriverRecord) : DriverFrame l l :=
  ⟨rfl, fun _ _ _ => ⟨rfl, rfl, rfl⟩⟩

lemma RecFrame_deactivateRecs (recs : List TargetRecord) (c : Nat) :
    RecFrame recs (deactivateRecs recs c) := by
  refine ⟨length_deactivateRecs recs c, ?_⟩
  intro i hi hj
  simp only [deactivateRecs, List.getElem_map]
  split <;> exact ⟨rfl, rfl, rfl⟩

lemma RecFrame_restoreRecs (recs : List TargetRecord) (ids : List Nat) :
    RecFrame recs (restoreRecs recs ids) := by
  refine ⟨length_restoreRecs recs ids, ?_⟩
  intro i hi hj
  simp only [restoreRecs, List.getElem_map]
  split <;> exact ⟨rfl, rfl, rfl⟩

lemma DriverFrame_deactivateDrivers (recs : List DriverRecord) (c : Nat) :
    DriverFrame recs (deactivateDrivers recs c) := by
  refine ⟨length_deactivateDrivers recs c, ?_⟩
  intro i hi hj
  simp only [deactivateDrivers, List.getElem_map]
  split <;> exact ⟨rfl, rfl, rfl⟩

lemma DriverFrame_restoreDrivers (recs : List DriverRecord) (ids : List Nat) :
    DriverFrame recs (restoreDrivers recs ids) := by
  refine ⟨length_restoreDrivers recs ids, ?_⟩
  intro i hi hj
  simp only [restoreDrivers, List.getElem_map]
  split <;> exact ⟨rfl, rfl, rfl⟩

/-! ### The snapshot uniqueness invariant -/

/-- Two snapshot rows agree on the unique key
    `(company_id, feature_key, table_name, item_id)`. -/
def sameSnapshotKey (a b : SnapshotEntry) : Prop :=
  a.company_id = b.company_id ∧ a.feature_key = b.feature_key ∧
  a.table_name = b.table_name ∧ a.item_id = b.item_id

/-- The UNIQUE constraint of `feature_deactivated_items`: no two rows share
    the key tuple. -/
def SnapshotUnique (items : List SnapshotEntry) : Prop :=
  items.Pairwise (fun a b => ¬ sameSnapshotKey a b)

/-- Store states reachable from an initial state with an empty snapshot
    table, by trigger firings and by external writes that do not touch the
    snapshot table (it is RLS-protected, accessible only to the cascade). -/
inductive Reachable : Store → Prop
  | init (s : Store) (h : s.feature_deactivated_items = []) : Reachable s
  | cascade (s : Store) (fk : Option String) (cid : Option Nat) (oldA newA : Bool)
      (now : Nat) (h : Reachable s) :
      Reachable (trigger_feature_toggle_cascade fk cid oldA newA now s)
  | external (s s' : Store) (h : Reachable s)
      (heq : s'.feature_deactivated_items = s.feature_deactivated_items) : Reachable s'

lemma any_insertSnapshotOne_self (items : List SnapshotEntry) (c : Nat) (f tbl : String)
    (i now : Nat) :
    (insertSnapshotOne items c f tbl i now).any
      (fun e => snapshotKeyMatches e c f tbl i) = true := by
  unfold insertSnapshotOne
  split
  · rename_i h
    exact h
  · rw [List.any_append, Bool.or_eq_true]
    right
    simp [snapshotKeyMatches]

lemma SnapshotUnique_insertSnapshotOne (items : List SnapshotEntry) (c : Nat)
    (f tbl : String) (i now : Nat) (h : SnapshotUnique items) :
    SnapshotUnique (insertSnapshotOne items c f tbl i now) := by
  unfold insertSnapshotOne
  split
  · exact h
  · rename_i hany
    refine List.pairwise_append.mpr ⟨h, List.pairwise_singleton _ _, ?_⟩
    intro a ha b hb
    simp only [List.mem_singleton] at hb
    subst hb
    intro hk
    apply hany
    refine List.any_eq_true.mpr ⟨a, ha, ?_⟩
    rw [snapshotKeyMatches_iff]
    exact ⟨hk.1, hk.2.1, hk.2.2.1, hk.2.2.2⟩

lemma SnapshotUnique_insertSnapshotMany (items : List SnapshotEntry) (c : Nat)
    (f tbl : String) (ids : List Nat) (now : Nat) (h : SnapshotUnique items) :
    SnapshotUnique (insertSnapshotMany items c f tbl ids now) := by
  induction ids generalizing items with
  | nil => exact h
  | cons a as ih =>
    rw [insertSnapshotMany_cons]
    exact ih _ (SnapshotUnique_insertSnapshotOne _ _ _ _ _ _ h)

lemma SnapshotUnique_clearSnapshot (items : List SnapshotEntry) (c : Nat) (f tbl : String)
    (h : SnapshotUnique items) : SnapshotUnique (clearSnapshot items c f tbl) :=
  List.Pairwise.sublist (List.filter_sublist _) h

lemma SnapshotUnique_handle (fk : Option String) (cid : Option Nat) (oldA newA : Bool)
    (now : Nat) (s : Store) (h : SnapshotUnique s.feature_deactivated_items) :
    SnapshotUnique
      (handle_feature_toggle_cascade fk cid oldA newA now s).feature_deactivated_items := by
  cases fk with
  | none => exact h
  | some f =>
    cases cid with
    | none => exact h
    | some c =>
      cases oldA <;> cases newA
      · exact h
      · show SnapshotUnique (cascadeReactivate f c s).feature_deactivated_items
        unfold cascadeReactivate
        split_ifs <;>
          first
            | exact SnapshotUnique_clearSnapshot _ _ _ _ h
            | exact h
      · show SnapshotUnique (cascadeDeactivate f c now s).feature_deactivated_items
        unfold cascadeDeactivate
        split_ifs <;>
          first
            | exact SnapshotUnique_insertSnapshotMany _ _ _ _ _ _ h
            | exact h
      · exact h

lemma SnapshotUnique_trigger (fk : Option String) (cid : Option Nat) (oldA newA : Bool)
    (now : Nat) (s : Store) (h : SnapshotUnique s.feature_deactivated_items) :
    SnapshotUnique
      (trigger_feature_toggle_cascade fk cid oldA newA now s).feature_deactivated_items := by
  unfold trigger_feature_toggle_cascade
  split
  · exact SnapshotUnique_handle fk cid oldA newA now s h
  · exact h

/-! ### Tenant consistency of the snapshot table -/

/-- Primary-key uniqueness of `id` in a single-flag collection. -/
def NoDupIds (recs : List TargetRecord) : Prop :=
  recs.Pairwise (fun a b => a.id ≠ b.id)

/-- Primary-key uniqueness of `id` in `delivery_drivers`. -/
def NoDupDriverIds (recs : List DriverRecord) : Prop :=
  recs.Pairwise (fun a b => a.id ≠ b.id)

/-- A snapshot row's `item_id` only ever identifies records of the row's own
    `company_id` in the collection the row names. -/
def entryConsistent (s : Store) (e : SnapshotEntry) : Prop :=
  (e.table_name = "coupons" →
    ∀ r ∈ s.coupons, r.id = e.item_id → r.company_id = e.company_id) ∧
  (e.table_name = "promotions" →
    ∀ r ∈ s.promotions, r.id = e.item_id → r.company_id = e.company_id) ∧
  (e.table_name = "delivery_drivers" →
    ∀ r ∈ s.delivery_drivers, r.id = e.item_id → r.company_id = e.company_id) ∧
  (e.table_name = "tables" →
    ∀ r ∈ s.tables, r.id = e.item_id → r.company_id = e.company_id)

/-- The tenant-consistency invariant: every snapshot row's `item_id` belongs
    to that row's tenant. -/
def TenantConsistent (s : Store) : Prop :=
  ∀ e ∈ s.feature_deactivated_items, entryConsistent s e

lemma forall_id_company_deactivateRecs (coll : List TargetRecord) (c item cid : Nat)
    (h : ∀ r ∈ coll, r.id = item → r.company_id = cid) :
    ∀ r ∈ deactivateRecs coll c, r.id = item → r.company_id = cid := by
  intro r' hr' hid
  simp only [deactivateRecs, List.mem_map] at hr'
  rcases hr' with ⟨r, hr, rfl⟩
  by_cases hcond : (r.company_id == c && r.is_active) = true
  · rw [if_pos hcond] at hid ⊢
    exact h r hr hid
  · rw [if_neg hcond] at hid ⊢
    exact h r hr hid

lemma forall_id_company_restoreRecs (coll : List TargetRecord) (ids : List Nat)
    (item cid : Nat) (h : ∀ r ∈ coll, r.id = item → r.company_id = cid) :
    ∀ r ∈ restoreRecs coll ids, r.id = item → r.company_id = cid := by
  intro r' hr' hid
  simp only [restoreRecs, List.mem_map] at hr'
  rcases hr' with ⟨r, hr, rfl⟩
  by_cases hcond : (ids.contains r.id) = true
  · rw [if_pos hcond] at hid ⊢
    exact h r hr hid
  · rw [if_neg hcond] at hid ⊢
    exact h r hr hid

lemma forall_id_company_deactivateDrivers (coll : List DriverRecord) (c item cid : Nat)
    (h : ∀ r ∈ coll, r.id = item → r.company_id = cid) :
    ∀ r ∈ deactivateDrivers coll c, r.id = item → r.company_id = cid := by
  intro r' hr' hid
  simp only [deactivateDrivers, List.mem_map] at hr'
  rcases hr' with ⟨r, hr, rfl⟩
  by_cases hcond : (r.company_id == c && r.is_active) = true
  · rw [if_pos hcond] at hid ⊢
    exact h r hr hid
  · rw [if_neg hcond] at hid ⊢
    exact h r hr hid

lemma forall_id_company_restoreDrivers (coll : List DriverRecord) (ids : List Nat)
    (item cid : Nat) (h : ∀ r ∈ coll, r.id = item → r.company_id = cid) :
    ∀ r ∈ restoreDrivers coll ids, r.id = item → r.company_id = cid := by
  intro r' hr' hid
  simp only [restoreDrivers, List.mem_map] at hr'
  rcases hr' with ⟨r, hr, rfl⟩
  by_cases hcond : (ids.contains r.id) = true
  · rw [if_pos hcond] at hid ⊢
    exact h r hr hid
  · rw [if_neg hcond] at hid ⊢
    exact h r hr hid

lemma eq_of_NoDupIds (recs : List TargetRecord) (r r0 : TargetRecord) (h : NoDupIds recs)
    (hr : r ∈ recs) (hr0 : r0 ∈ recs) (hid : r.id = r0.id) : r = r0 := by
  by_contra hne
  exact List.Pairwise.forall (fun x y hxy => hxy.symm) h hr hr0 hne hid

lemma eq_of_NoDupDriverIds (recs : List DriverRecord) (r r0 : DriverRecord)
    (h : NoDupDriverIds recs) (hr : r ∈ recs) (hr0 : r0 ∈ recs) (hid : r.id = r0.id) :
    r = r0 := by
  by_contra hne
  exact List.Pairwise.forall (fun x y hxy => hxy.symm) h hr hr0 hne hid

lemma mem_activeIds_decomp (recs : List TargetRecord) (c i : Nat)
    (h : i ∈ activeIds recs c) : ∃ r ∈ recs, r.id = i ∧ r.company_id = c := by
  simp only [activeIds, List.mem_map, List.mem_filter, Bool.and_eq_true, beq_iff_eq] at h
  rcases h with ⟨r, ⟨hr, hc, _⟩, hid⟩
  exact ⟨r, hr, hid, hc⟩

lemma mem_driverActiveIds_decomp (recs : List DriverRecord) (c i : Nat)
    (h : i ∈ driverActiveIds recs c) : ∃ r ∈ recs, r.id = i ∧ r.company_id = c := by
  simp only [driverActiveIds, List.mem_map, List.mem_filter, Bool.and_eq_true,
    beq_iff_eq] at h
  rcases h with ⟨r, ⟨hr, hc, _⟩, hid⟩
  exact ⟨r, hr, hid, hc⟩

lemma mem_insertSnapshotMany_decomp (e : SnapshotEntry) (items : List SnapshotEntry)
    (c : Nat) (f tbl : String) (ids : List Nat) (now : Nat)
    (h : e ∈ insertSnapshotMany items c f tbl ids now) :
    e ∈ items ∨
      (e.company_id = c ∧ e.feature_key = f ∧ e.table_name = tbl ∧ e.item_id ∈ ids) := by
  induction ids generalizing items with
  | nil => exact Or.inl h
  | cons a as ih =>
    rw [insertSnapshotMany_cons] at h
    rcases ih (insertSnapshotOne items c f tbl a now) h with h2 | h2
    · unfold insertSnapshotOne at h2
      split at h2
      · exact Or.inl h2
      · rcases List.mem_append.mp h2 with h3 | h3
        · exact Or.inl h3
        · simp only [List.mem_singleton] at h3
          subst h3
          exact Or.inr ⟨rfl, rfl, rfl, List.mem_cons_self a as⟩
    · exact Or.inr ⟨h2.1, h2.2.1, h2.2.2.1, List.mem_cons_of_mem a h2.2.2.2⟩

lemma mem_clearSnapshot (e : SnapshotEntry) (items : List SnapshotEntry) (c : Nat)
    (f tbl : String) (h : e ∈ clearSnapshot items c f tbl) : e ∈ items :=
  (List.mem_filter.mp h).1

lemma TenantConsistent_snapdeact_coupons (s : Store) (c now : Nat)
    (hTC : TenantConsistent s) (h1 : NoDupIds s.coupons) :
    TenantConsistent
      { s with
        feature_deactivated_items := insertSnapshotMany s.feature_deactivated_items c
          "coupons" "coupons" (activeIds s.coupons c) now
        coupons := deactivateRecs s.coupons c } := by
  intro e he
  rcases mem_insertSnapshotMany_decomp e _ _ _ _ _ _ he with hold | hnew
  · have h := hTC e hold
    exact ⟨fun ht => forall_id_company_deactivateRecs _ _ _ _ (h.1 ht), h.2.1, h.2.2.1,
      h.2.2.2⟩
  · obtain ⟨hcomp, hfeat, htbl, hmem⟩ := hnew
    obtain ⟨r0, hr0, hid0, hc0⟩ := mem_activeIds_decomp _ _ _ hmem
    refine ⟨fun ht => ?_, fun ht => ?_, fun ht => ?_, fun ht => ?_⟩
    · apply forall_id_company_deactivateRecs
      intro r hr hid
      have heq : r = r0 := eq_of_NoDupIds s.coupons r r0 h1 hr hr0 (by rw [hid, hid0])
      rw [heq, hc0, hcomp]
    · rw [htbl] at ht
      exact absurd ht (by decide)
    · rw [htbl] at ht
      exact absurd ht (by decide)
    · rw [htbl] at ht
      exact absurd ht (by decide)

lemma TenantConsistent_snapdeact_promotions (s : Store) (c now : Nat)
    (hTC : TenantConsistent s) (h2 : NoDupIds s.promotions) :
    TenantConsistent
      { s with
        feature_deactivated_items := insertSnapshotMany s.feature_deactivated_items c
          "promotions" "promotions" (activeIds s.promotions c) now
        promotions := deactivateRecs s.promotions c } := by
  intro e he
  rcases mem_insertSnapshotMany_decomp e _ _ _ _ _ _ he with hold | hnew
  · have h := hTC e hold
    exact ⟨h.1, fun ht => forall_id_company_deactivateRecs _ _ _ _ (h.2.1 ht), h.2.2.1,
      h.2.2.2⟩
  · obtain ⟨hcomp, hfeat, htbl, hmem⟩ := hnew
    obtain ⟨r0, hr0, hid0, hc0⟩ := mem_activeIds_decomp _ _ _ hmem
    refine ⟨fun ht => ?_, fun ht => ?_, fun ht => ?_, fun ht => ?_⟩
    · rw [htbl] at ht
      exact absurd ht (by decide)
    · apply forall_id_company_deactivateRecs
      intro r hr hid
      have heq : r = r0 := eq_of_NoDupIds s.promotions r r0 h2 hr hr0 (by rw [hid, hid0])
      rw [heq, hc0, hcomp]
    · rw [htbl] at ht
      exact absurd ht (by decide)
    · rw [htbl] at ht
      exact absurd ht (by decide)

lemma TenantConsistent_snapdeact_drivers (s : Store) (c now : Nat)
    (hTC : TenantConsistent s) (h3 : NoDupDriverIds s.delivery_drivers) :
    TenantConsistent
      { s with
        feature_deactivated_items := insertSnapshotMany s.feature_deactivated_items c
          "drivers" "delivery_drivers" (driverActiveIds s.delivery_drivers c) now
        delivery_drivers := deactivateDrivers s.delivery_drivers c } := by
  intro e he
  rcases mem_insertSnapshotMany_decomp e _ _ _ _ _ _ he with hold | hnew
  · have h := hTC e hold
    exact ⟨h.1, h.2.1, fun ht => forall_id_company_deactivateDrivers _ _ _ _ (h.2.2.1 ht),
      h.2.2.2⟩
  · obtain ⟨hcomp, hfeat, htbl, hmem⟩ := hnew
    obtain ⟨r0, hr0, hid0, hc0⟩ := mem_driverActiveIds_decomp _ _ _ hmem
    refine ⟨fun ht => ?_, fun ht => ?_, fun ht => ?_, fun ht => ?_⟩
    · rw [htbl] at ht
      exact absurd ht (by decide)
    · rw [htbl] at ht
      exact absurd ht (by decide)
    · apply forall_id_company_deactivateDrivers
      intro r hr hid
      have heq : r = r0 :=
        eq_of_NoDupDriverIds s.delivery_drivers r r0 h3 hr hr0 (by rw [hid, hid0])
      rw [heq, hc0, hcomp]
    · rw [htbl] at ht
      exact absurd ht (by decide)

lemma TenantConsistent_snapdeact_tables (s : Store) (c now : Nat)
    (hTC : TenantConsistent s) (h4 : NoDupIds s.tables) :
    TenantConsistent
      { s with
        feature_deactivated_items := insertSnapshotMany s.feature_deactivated_items c
          "tables" "tables" (activeIds s.tables c) now
        tables := deactivateRecs s.tables c } := by
  intro e he
  rcases mem_insertSnapshotMany_decomp e _ _ _ _ _ _ he with hold | hnew
  · have h := hTC e hold
    exact ⟨h.1, h.2.1, h.2.2.1, fun ht => forall_id_company_deactivateRecs _ _ _ _
      (h.2.2.2 ht)⟩
  · obtain ⟨hcomp, hfeat, htbl, hmem⟩ := hnew
    obtain ⟨r0, hr0, hid0, hc0⟩ := mem_activeIds_decomp _ _ _ hmem
    refine ⟨fun ht => ?_, fun ht => ?_, fun ht => ?_, fun ht => ?_⟩
    · rw [htbl] at ht
      exact absurd ht (by decide)
    · rw [htbl] at ht
      exact absurd ht (by decide)
    · rw [htbl] at ht
      exact absurd ht (by decide)
    · apply forall_id_company_deactivateRecs
      intro r hr hid
      have heq : r = r0 := eq_of_NoDupIds s.tables r r0 h4 hr hr0 (by rw [hid, hid0])
      rw [heq, hc0, hcomp]

lemma TenantConsistent_restore_coupons (s : Store) (c : Nat) (hTC : TenantConsistent s) :
    TenantConsistent
      { s with
        coupons := restoreRecs s.coupons
          (snapshotIds s.feature_deactivated_items c "coupons" "coupons")
        feature_deactivated_items :=
          clearSnapshot s.feature_deactivated_items c "coupons" "coupons" } := by
  intro e he
  have h := hTC e (mem_clearSnapshot e _ _ _ _ he)
  exact ⟨fun ht => forall_id_company_restoreRecs _ _ _ _ (h.1 ht), h.2.1, h.2.2.1, h.2.2.2⟩

lemma TenantConsistent_restore_promotions (s : Store) (c : Nat) (hTC : TenantConsistent s) :
    TenantConsistent
      { s with
        promotions := restoreRecs s.promotions
          (snapshotIds s.feature_deactivated_items c "promotions" "promotions")
        feature_deactivated_items :=
          clearSnapshot s.feature_deactivated_items c "promotions" "promotions" } := by
  intro e he
  have h := hTC e (mem_clearSnapshot e _ _ _ _ he)
  exact ⟨h.1, fun ht => forall_id_company_restoreRecs _ _ _ _ (h.2.1 ht), h.2.2.1, h.2.2.2⟩

lemma TenantConsistent_restore_drivers (s : Store) (c : Nat) (hTC : TenantConsistent s) :
    TenantConsistent
      { s with
        delivery_drivers := restoreDrivers s.delivery_drivers
          (snapshotIds s.feature_deactivated_items c "drivers" "delivery_drivers")
        feature_deactivated_items :=
          clearSnapshot s.feature_deactivated_items c "drivers" "delivery_drivers" } := by
  intro e he
  have h := hTC e (mem_clearSnapshot e _ _ _ _ he)
  exact ⟨h.1, h.2.1, fun ht => forall_id_company_restoreDrivers _ _ _ _ (h.2.2.1 ht),
    h.2.2.2⟩

lemma TenantConsistent_restore_tables (s : Store) (c : Nat) (hTC : TenantConsistent s) :
    TenantConsistent
      { s with
        tables := restoreRecs s.tables
          (snapshotIds s.feature_deactivated_items c "tables" "tables")
        feature_deactivated_items :=
          clearSnapshot s.feature_deactivated_items c "tables" "tables" } := by
  intro e he
  have h := hTC e (mem_clearSnapshot e _ _ _ _ he)
  exact ⟨h.1, h.2.1, h.2.2.1, fun ht => forall_id_company_restoreRecs _ _ _ _ (h.2.2.2 ht)⟩

lemma TenantConsistent_handle (fk : Option String) (cid : Option Nat) (oldA newA : Bool)
    (now : Nat) (s : Store) (hTC : TenantConsistent s) (h1 : NoDupIds s.coupons)
    (h2 : NoDupIds s.promotions) (h3 : NoDupDriverIds s.delivery_drivers)
    (h4 : NoDupIds s.tables) :
    TenantConsistent (handle_feature_toggle_cascade fk cid oldA newA now s) := by
  cases fk with
  | none => exact hTC
  | some f =>
    cases cid with
    | none => exact hTC
    | some c =>
      cases oldA <;> cases newA
      · exact hTC
      · by_cases hf1 : f = "coupons"
        · subst hf1
          exact TenantConsistent_restore_coupons s c hTC
        by_cases hf2 : f = "promotions"
        · subst hf2
          exact TenantConsistent_restore_promotions s c hTC
        by_cases hf3 : f = "drivers"
        · subst hf3
          exact TenantConsistent_restore_drivers s c hTC
        by_cases hf4 : f = "tables"
        · subst hf4
          exact TenantConsistent_restore_tables s c hTC
        rw [handle_unregistered_react f c now s hf1 hf2 hf3 hf4]
        exact hTC
      · by_cases hf1 : f = "coupons"
        · subst hf1
          exact TenantConsistent_snapdeact_coupons s c now hTC h1
        by_cases hf2 : f = "promotions"
        · subst hf2
          exact TenantConsistent_snapdeact_promotions s c now hTC h2
        by_cases hf3 : f = "drivers"
        · subst hf3
          exact TenantConsistent_snapdeact_drivers s c now hTC h3
        by_cases hf4 : f = "tables"
        · subst hf4
          exact TenantConsistent_snapdeact_tables s c now hTC h4
        rw [handle_unregistered_deact f c now s hf1 hf2 hf3 hf4]
        exact hTC
      · exact hTC

/-! ### Claim theorems -/

/-- C5: each half-cycle of the cascade is idempotent — running the
    DEACTIVATING body twice from any state gives the same store as running it
    once, and likewise for the REACTIVATING body, so a failed transition can
    be retried from scratch. -/
theorem C5_half_cycles_idempotent (fk : Option String) (cid : Option Nat)
    (now1 now2 : Nat) (s : Store) :
    handle_feature_toggle_cascade fk cid true false now2
        (handle_feature_toggle_cascade fk cid true false now1 s) =
      handle_feature_toggle_cascade fk cid true false now1 s ∧
    handle_feature_toggle_cascade fk cid false true now2
        (handle_feature_toggle_cascade fk cid false true now1 s) =
      handle_feature_toggle_cascade fk cid false true now1 s := by
  cases fk with
  | none => exact ⟨rfl, rfl⟩
  | some f =>
    cases cid with
    | none => exact ⟨rfl, rfl⟩
    | some c =>
      by_cases h1 : f = "coupons"
      · subst h1
        constructor
        · simp only [handle_deact_coupons]
          simp [activeIds_deactivateRecs, deactivateRecs_idem, insertSnapshotMany_nil]
        · simp only [handle_react_coupons]
          simp [snapshotIds_clearSnapshot, restoreRecs_nil, clearSnapshot_idem]
      by_cases h2 : f = "promotions"
      · subst h2
        constructor
        · simp only [handle_deact_promotions]
          simp [activeIds_deactivateRecs, deactivateRecs_idem, insertSnapshotMany_nil]
        · simp only [handle_react_promotions]
          simp [snapshotIds_clearSnapshot, restoreRecs_nil, clearSnapshot_idem]
      by_cases h3 : f = "drivers"
      · subst h3
        constructor
        · simp only [handle_deact_drivers]
          simp [driverActiveIds_deactivateDrivers, deactivateDrivers_idem,
            insertSnapshotMany_nil]
        · simp only [handle_react_drivers]
          simp [snapshotIds_clearSnapshot, restoreDrivers_nil, clearSnapshot_idem]
      by_cases h4 : f = "tables"
      · subst h4
        constructor
        · simp only [handle_deact_tables]
          simp [activeIds_deactivateRecs, deactivateRecs_idem, insertSnapshotMany_nil]
        · simp only [handle_react_tables]
          simp [snapshotIds_clearSnapshot, restoreRecs_nil, clearSnapshot_idem]
      constructor
      · rw [handle_unregistered_deact f c now1 s h1 h2 h3 h4,
          handle_unregistered_deact f c now2 s h1 h2 h3 h4]
      · rw [handle_unregistered_react f c now1 s h1 h2 h3 h4,
          handle_unregistered_react f c now2 s h1 h2 h3 h4]

/-- C7: a write that does not change the activation flag (true→true or
    false→false) performs no store mutation, both at the trigger guard
    (WHEN OLD.is_active IS DISTINCT FROM NEW.is_active) and in the function
    body itself. -/
theorem C7_noop_transition_no_mutation (fk : Option String) (cid : Option Nat)
    (b : Bool) (now : Nat) (s : Store) :
    trigger_feature_toggle_cascade fk cid b b now s = s ∧
    handle_feature_toggle_cascade fk cid b b now s = s := by
  constructor
  · rw [trigger_feature_toggle_cascade, if_neg (by simp)]
  · cases fk with
    | none => rfl
    | some f =>
      cases cid with
      | none => rfl
      | some c =>
        show (if b && !b then _ else if !b && b then _ else s) = s
        cases b <;> rfl

/-- C8: a feature key with no registered cascade rule (not one of coupons,
    promotions, drivers, tables) cascades to nothing in either direction:
    both transitions return the store unchanged and report no error. -/
theorem C8_unknown_feature_no_cascade (f : String) (c : Nat) (now now2 : Nat) (s : Store)
    (h1 : f ≠ "coupons") (h2 : f ≠ "promotions") (h3 : f ≠ "drivers") (h4 : f ≠ "tables") :
    handle_feature_toggle_cascade (some f) (some c) true false now s = s ∧
    handle_feature_toggle_cascade (some f) (some c) false true now2 s = s :=
  ⟨handle_unregistered_deact f c now s h1 h2 h3 h4,
   handle_unregistered_react f c now2 s h1 h2 h3 h4⟩

/-- C2: for every tenant `c` and every registered feature, a DEACTIVATING
    cascade immediately followed by a REACTIVATING cascade leaves every
    record of `c` that was active before the cycle active again, and leaves
    zero snapshot rows for (tenant, feature, collection). -/
theorem C2_round_trip_restores_and_clears (s : Store) (c now now2 : Nat) :
    ((∀ i, ∀ hi : i < s.coupons.length, s.coupons[i].company_id = c →
        s.coupons[i].is_active = true →
        ∀ hj : i < (roundTrip "coupons" c now now2 s).coupons.length,
          ((roundTrip "coupons" c now now2 s).coupons[i]).is_active = true) ∧
      snapshotIds (roundTrip "coupons" c now now2 s).feature_deactivated_items
        c "coupons" "coupons" = []) ∧
    ((∀ i, ∀ hi : i < s.promotions.length, s.promotions[i].company_id = c →
        s.promotions[i].is_active = true →
        ∀ hj : i < (roundTrip "promotions" c now now2 s).promotions.length,
          ((roundTrip "promotions" c now now2 s).promotions[i]).is_active = true) ∧
      snapshotIds (roundTrip "promotions" c now now2 s).feature_deactivated_items
        c "promotions" "promotions" = []) ∧
    ((∀ i, ∀ hi : i < s.delivery_drivers.length, s.delivery_drivers[i].company_id = c →
        s.delivery_drivers[i].is_active = true →
        ∀ hj : i < (roundTrip "drivers" c now now2 s).delivery_drivers.length,
          ((roundTrip "drivers" c now now2 s).delivery_drivers[i]).is_active = true) ∧
      snapshotIds (roundTrip "drivers" c now now2 s).feature_deactivated_items
        c "drivers" "delivery_drivers" = []) ∧
    ((∀ i, ∀ hi : i < s.tables.length, s.tables[i].company_id = c →
        s.tables[i].is_active = true →
        ∀ hj : i < (roundTrip "tables" c now now2 s).tables.length,
          ((roundTrip "tables" c now now2 s).tables[i]).is_active = true) ∧
      snapshotIds (roundTrip "tables" c now now2 s).feature_deactivated_items
        c "tables" "tables" = []) := by
  refine ⟨⟨?_, ?_⟩, ⟨?_, ?_⟩, ⟨?_, ?_⟩, ⟨?_, ?_⟩⟩
  · intro i hi hc ha hj
    exact roundtrip_rec_active s.coupons s.feature_deactivated_items c now "coupons" "coupons"
      i hi hc ha hj
  · exact snapshotIds_clearSnapshot _ _ _ _
  · intro i hi hc ha hj
    exact roundtrip_rec_active s.promotions s.feature_deactivated_items c now "promotions"
      "promotions" i hi hc ha hj
  · exact snapshotIds_clearSnapshot _ _ _ _
  · intro i hi hc ha hj
    exact (roundtrip_driver_active s.delivery_drivers s.feature_deactivated_items c now
      "drivers" "delivery_drivers" i hi hc ha hj).1
  · exact snapshotIds_clearSnapshot _ _ _ _
  · intro i hi hc ha hj
    exact roundtrip_rec_active s.tables s.feature_deactivated_items c now "tables" "tables"
      i hi hc ha hj
  · exact snapshotIds_clearSnapshot _ _ _ _

/-- Witness for C2: on the sample store, tenant 1's first coupon is active
    again after the cycle and the snapshot table holds no rows for the key. -/
theorem C2_round_trip_restores_and_clears_witness :
    ((roundTrip "coupons" 1 0 0 sampleStore).coupons.get ⟨0, by decide⟩).is_active = true ∧
    snapshotIds (roundTrip "coupons" 1 0 0 sampleStore).feature_deactivated_items
      1 "coupons" "coupons" = [] :=
  ⟨(C2_round_trip_restores_and_clears sampleStore 1 0 0).1.1 0 (by decide) (by decide)
      (by decide) (by decide),
   (C2_round_trip_restores_and_clears sampleStore 1 0 0).1.2⟩

/-- Counterexample for C1 as stated: the drivers deactivation clears both
    `is_active` and `is_available`, but after the REACTIVATING cascade the
    snapshotted driver has `is_available = false` — the restoration does not
    set `is_available` back to true. -/
theorem C1_counterexample :
    ¬ ((roundTrip "drivers" 1 0 0
          ⟨[], [], [⟨5, 1, true, true, 0⟩], [], []⟩).delivery_drivers.get
        ⟨0, by decide⟩).is_available = true := by decide

/-- C1 amended: for coupons, promotions and tables the restoration sets the
    single cleared attribute `is_active` back to true for snapshotted
    records, but for the drivers rule only `is_active` is restored:
    `is_available`, cleared on deactivation, stays false after the cycle. -/
theorem C1_amended_drivers_available_not_restored (s : Store) (c now now2 i : Nat)
    (hi : i < s.delivery_drivers.length)
    (hc : s.delivery_drivers[i].company_id = c)
    (ha : s.delivery_drivers[i].is_active = true)
    (hj : i < (roundTrip "drivers" c now now2 s).delivery_drivers.length) :
    ((roundTrip "drivers" c now now2 s).delivery_drivers[i]).is_active = true ∧
    ((roundTrip "drivers" c now now2 s).delivery_drivers[i]).is_available = false :=
  roundtrip_driver_active s.delivery_drivers s.feature_deactivated_items c now
    "drivers" "delivery_drivers" i hi hc ha hj

/-- Witness for the amended C1 on the sample store: the snapshotted driver is
    active but not available after the cycle. -/
theorem C1_amended_drivers_available_not_restored_witness :
    ((roundTrip "drivers" 1 0 0 sampleStore).delivery_drivers.get ⟨0, by decide⟩).is_active =
      true ∧
    ((roundTrip "drivers" 1 0 0 sampleStore).delivery_drivers.get ⟨0, by decide⟩).is_available =
      false :=
  C1_amended_drivers_available_not_restored sampleStore 1 0 0 0 (by decide) (by decide)
    (by decide) (by decide)

/-- C4: the REACTIVATING cascade only ever modifies records whose id is in
    the snapshot set for (tenant, feature, collection); any record whose id
    is outside that set — for any feature key whatsoever — is left entirely
    unchanged by the restoration. -/
theorem C4_reactivate_touches_only_snapshot (f : String) (c now : Nat) (s : Store) :
    (∀ i, ∀ hi : i < s.coupons.length,
      s.coupons[i].id ∉ snapshotIds s.feature_deactivated_items c f "coupons" →
      ∀ hj : i < (reactivate f c now s).coupons.length,
        (reactivate f c now s).coupons[i] = s.coupons[i]) ∧
    (∀ i, ∀ hi : i < s.promotions.length,
      s.promotions[i].id ∉ snapshotIds s.feature_deactivated_items c f "promotions" →
      ∀ hj : i < (reactivate f c now s).promotions.length,
        (reactivate f c now s).promotions[i] = s.promotions[i]) ∧
    (∀ i, ∀ hi : i < s.delivery_drivers.length,
      s.delivery_drivers[i].id ∉
        snapshotIds s.feature_deactivated_items c f "delivery_drivers" →
      ∀ hj : i < (reactivate f c now s).delivery_drivers.length,
        (reactivate f c now s).delivery_drivers[i] = s.delivery_drivers[i]) ∧
    (∀ i, ∀ hi : i < s.tables.length,
      s.tables[i].id ∉ snapshotIds s.feature_deactivated_items c f "tables" →
      ∀ hj : i < (reactivate f c now s).tables.length,
        (reactivate f c now s).tables[i] = s.tables[i]) := by
  by_cases h1 : f = "coupons"
  · subst h1
    refine ⟨?_, ?_, ?_, ?_⟩
    · intro i hi hmem hj
      exact restoreRecs_getElem_of_not_mem s.coupons _ i hi hmem hj
    all_goals intro i hi hmem hj; rfl
  by_cases h2 : f = "promotions"
  · subst h2
    refine ⟨?_, ?_, ?_, ?_⟩
    · intro i hi hmem hj
      rfl
    · intro i hi hmem hj
      exact restoreRecs_getElem_of_not_mem s.promotions _ i hi hmem hj
    all_goals intro i hi hmem hj; rfl
  by_cases h3 : f = "drivers"
  · subst h3
    refine ⟨?_, ?_, ?_, ?_⟩
    · intro i hi hmem hj
      rfl
    · intro i hi hmem hj
      rfl
    · intro i hi hmem hj
      exact restoreDrivers_getElem_of_not_mem s.delivery_drivers _ i hi hmem hj
    · intro i hi hmem hj
      rfl
  by_cases h4 : f = "tables"
  · subst h4
    refine ⟨?_, ?_, ?_, ?_⟩
    · intro i hi hmem hj
      rfl
    · intro i hi hmem hj
      rfl
    · intro i hi hmem hj
      rfl
    · intro i hi hmem hj
      exact restoreRecs_getElem_of_not_mem s.tables _ i hi hmem hj
  have hid : reactivate f c now s = s := handle_unregistered_react f c now s h1 h2 h3 h4
  refine ⟨?_, ?_, ?_, ?_⟩ <;>
    · intro i hi hmem hj
      simp only [hid]

/-- Witness for C4: on the sample store (empty snapshot table) the
    reactivation of coupons for tenant 1 leaves the first coupon unchanged. -/
theorem C4_reactivate_touches_only_snapshot_witness :
    (reactivate "coupons" 1 0 sampleStore).coupons.get ⟨0, by decide⟩ =
      sampleStore.coupons.get ⟨0, by decide⟩ :=
  (C4_reactivate_touches_only_snapshot "coupons" 1 0 sampleStore).1 0 (by decide)
    (by decide) (by decide)

/-- C6: for every registered rule, every record of the tenant that the
    DEACTIVATING cascade deactivates has a snapshot entry for it in the
    resulting state (inserted before the UPDATE reads the same pre-state),
    and the REACTIVATING cascade leaves zero snapshot rows for the
    (tenant, feature, collection) key once it completes. -/
theorem C6_snapshot_covers_deactivated_and_cleared (s : Store) (c now now2 : Nat) :
    ((∀ i, ∀ hi : i < s.coupons.length, s.coupons[i].company_id = c →
        s.coupons[i].is_active = true →
        s.coupons[i].id ∈
          snapshotIds (deactivate "coupons" c now s).feature_deactivated_items
            c "coupons" "coupons" ∧
        ∀ hj : i < (deactivate "coupons" c now s).coupons.length,
          ((deactivate "coupons" c now s).coupons[i]).is_active = false) ∧
      snapshotIds (reactivate "coupons" c now2 s).feature_deactivated_items
        c "coupons" "coupons" = []) ∧
    ((∀ i, ∀ hi : i < s.promotions.length, s.promotions[i].company_id = c →
        s.promotions[i].is_active = true →
        s.promotions[i].id ∈
          snapshotIds (deactivate "promotions" c now s).feature_deactivated_items
            c "promotions" "promotions" ∧
        ∀ hj : i < (deactivate "promotions" c now s).promotions.length,
          ((deactivate "promotions" c now s).promotions[i]).is_active = false) ∧
      snapshotIds (reactivate "promotions" c now2 s).feature_deactivated_items
        c "promotions" "promotions" = []) ∧
    ((∀ i, ∀ hi : i < s.delivery_drivers.length, s.delivery_drivers[i].company_id = c →
        s.delivery_drivers[i].is_active = true →
        s.delivery_drivers[i].id ∈
          snapshotIds (deactivate "drivers" c now s).feature_deactivated_items
            c "drivers" "delivery_drivers" ∧
        ∀ hj : i < (deactivate "drivers" c now s).delivery_drivers.length,
          ((deactivate "drivers" c now s).delivery_drivers[i]).is_active = false) ∧
      snapshotIds (reactivate "drivers" c now2 s).feature_deactivated_items
        c "drivers" "delivery_drivers" = []) ∧
    ((∀ i, ∀ hi : i < s.tables.length, s.tables[i].company_id = c →
        s.tables[i].is_active = true →
        s.tables[i].id ∈
          snapshotIds (deactivate "tables" c now s).feature_deactivated_items
            c "tables" "tables" ∧
        ∀ hj : i < (deactivate "tables" c now s).tables.length,
          ((deactivate "tables" c now s).tables[i]).is_active = false) ∧
      snapshotIds (reactivate "tables" c now2 s).feature_deactivated_items
        c "tables" "tables" = []) := by
  refine ⟨⟨?_, ?_⟩, ⟨?_, ?_⟩, ⟨?_, ?_⟩, ⟨?_, ?_⟩⟩
  · intro i hi hc ha
    exact ⟨mem_snapshotIds_insertSnapshotMany _ _ _ _ _ _ _
        (mem_activeIds _ _ _ (List.getElem_mem _) hc ha),
      fun hj => deactivateRecs_getElem_active s.coupons c i hi hc ha hj⟩
  · exact snapshotIds_clearSnapshot _ _ _ _
  · intro i hi hc ha
    exact ⟨mem_snapshotIds_insertSnapshotMany _ _ _ _ _ _ _
        (mem_activeIds _ _ _ (List.getElem_mem _) hc ha),
      fun hj => deactivateRecs_getElem_active s.promotions c i hi hc ha hj⟩
  · exact snapshotIds_clearSnapshot _ _ _ _
  · intro i hi hc ha
    exact ⟨mem_snapshotIds_insertSnapshotMany _ _ _ _ _ _ _
        (mem_driverActiveIds _ _ _ (List.getElem_mem _) hc ha),
      fun hj => deactivateDrivers_getElem_active s.delivery_drivers c i hi hc ha hj⟩
  · exact snapshotIds_clearSnapshot _ _ _ _
  · intro i hi hc ha
    exact ⟨mem_snapshotIds_insertSnapshotMany _ _ _ _ _ _ _
        (mem_activeIds _ _ _ (List.getElem_mem _) hc ha),
      fun hj => deactivateRecs_getElem_active s.tables c i hi hc ha hj⟩
  · exact snapshotIds_clearSnapshot _ _ _ _

/-- Witness for C6 on the sample store: the deactivated first coupon of
    tenant 1 is snapshotted and inactive, and reactivation clears the key. -/
theorem C6_snapshot_covers_deactivated_and_cleared_witness :
    (1 ∈ snapshotIds (deactivate "coupons" 1 0 sampleStore).feature_deactivated_items
        1 "coupons" "coupons" ∧
      ((deactivate "coupons" 1 0 sampleStore).coupons.get ⟨0, by decide⟩).is_active = false) ∧
    snapshotIds (reactivate "coupons" 1 0 sampleStore).feature_deactivated_items
      1 "coupons" "coupons" = [] := by
  have h := (C6_snapshot_covers_deactivated_and_cleared sampleStore 1 0 0).1
  exact ⟨⟨(h.1 0 (by decide) (by decide) (by decide)).1,
    (h.1 0 (by decide) (by decide) (by decide)).2 (by decide)⟩, h.2⟩

/-- C9: for every transition whatsoever, the cascade never inserts into or
    deletes from any target collection and, for every target record, changes
    at most the activation attributes: length, `id`, `company_id` and all
    other attributes are unchanged in all four collections. -/
theorem C9_lifecycle_frame (fk : Option String) (cid : Option Nat) (oldA newA : Bool)
    (now : Nat) (s : Store) :
    RecFrame s.coupons (handle_feature_toggle_cascade fk cid oldA newA now s).coupons ∧
    RecFrame s.promotions (handle_feature_toggle_cascade fk cid oldA newA now s).promotions ∧
    DriverFrame s.delivery_drivers
      (handle_feature_toggle_cascade fk cid oldA newA now s).delivery_drivers ∧
    RecFrame s.tables (handle_feature_toggle_cascade fk cid oldA newA now s).tables := by
  cases fk with
  | none => exact ⟨RecFrame_refl _, RecFrame_refl _, DriverFrame_refl _, RecFrame_refl _⟩
  | some f =>
    cases cid with
    | none => exact ⟨RecFrame_refl _, RecFrame_refl _, DriverFrame_refl _, RecFrame_refl _⟩
    | some c =>
      cases oldA <;> cases newA
      · exact ⟨RecFrame_refl _, RecFrame_refl _, DriverFrame_refl _, RecFrame_refl _⟩
      · show RecFrame s.coupons (cascadeReactivate f c s).coupons ∧
          RecFrame s.promotions (cascadeReactivate f c s).promotions ∧
          DriverFrame s.delivery_drivers (cascadeReactivate f c s).delivery_drivers ∧
          RecFrame s.tables (cascadeReactivate f c s).tables
        unfold cascadeReactivate
        split_ifs
        · exact ⟨RecFrame_restoreRecs _ _, RecFrame_refl _, DriverFrame_refl _,
            RecFrame_refl _⟩
        · exact ⟨RecFrame_refl _, RecFrame_restoreRecs _ _, DriverFrame_refl _,
            RecFrame_refl _⟩
        · exact ⟨RecFrame_refl _, RecFrame_refl _, DriverFrame_restoreDrivers _ _,
            RecFrame_refl _⟩
        · exact ⟨RecFrame_refl _, RecFrame_refl _, DriverFrame_refl _,
            RecFrame_restoreRecs _ _⟩
        · exact ⟨RecFrame_refl _, RecFrame_refl _, DriverFrame_refl _, RecFrame_refl _⟩
      · show RecFrame s.coupons (cascadeDeactivate f c now s).coupons ∧
          RecFrame s.promotions (cascadeDeactivate f c now s).promotions ∧
          DriverFrame s.delivery_drivers (cascadeDeactivate f c now s).delivery_drivers ∧
          RecFrame s.tables (cascadeDeactivate f c now s).tables
        unfold cascadeDeactivate
        split_ifs
        · exact ⟨RecFrame_deactivateRecs _ _, RecFrame_refl _, DriverFrame_refl _,
            RecFrame_refl _⟩
        · exact ⟨RecFrame_refl _, RecFrame_deactivateRecs _ _, DriverFrame_refl _,
            RecFrame_refl _⟩
        · exact ⟨RecFrame_refl _, RecFrame_refl _, DriverFrame_deactivateDrivers _ _,
            RecFrame_refl _⟩
        · exact ⟨RecFrame_refl _, RecFrame_refl _, DriverFrame_refl _,
            RecFrame_deactivateRecs _ _⟩
        · exact ⟨RecFrame_refl _, RecFrame_refl _, DriverFrame_refl _, RecFrame_refl _⟩
      · exact ⟨RecFrame_refl _, RecFrame_refl _, DriverFrame_refl _, RecFrame_refl _⟩

/-- Witness for C9: deactivating coupons for tenant 1 on the sample store
    keeps the length and the identity of the first coupon. -/
theorem C9_lifecycle_frame_witness :
    (deactivate "coupons" 1 0 sampleStore).coupons.length =
      sampleStore.coupons.length ∧
    ((deactivate "coupons" 1 0 sampleStore).coupons.get ⟨0, by decide⟩).id =
      (sampleStore.coupons.get ⟨0, by decide⟩).id :=
  ⟨(C9_lifecycle_frame (some "coupons") (some 1) true false 0 sampleStore).1.1,
   ((C9_lifecycle_frame (some "coupons") (some 1) true false 0 sampleStore).1.2
      0 (by decide) (by decide)).1⟩

/-- C3: in every reachable store state the snapshot table holds at most one
    row per (company_id, feature_key, table_name, item_id) tuple, and the
    ON CONFLICT DO NOTHING insert is idempotent: re-inserting an existing key
    leaves the table unchanged and reports no error. -/
theorem C3_snapshot_unique_and_insert_idempotent :
    (∀ s : Store, Reachable s → SnapshotUnique s.feature_deactivated_items) ∧
    (∀ (items : List SnapshotEntry) (c : Nat) (f tbl : String) (i now now2 : Nat),
      insertSnapshotOne (insertSnapshotOne items c f tbl i now) c f tbl i now2 =
        insertSnapshotOne items c f tbl i now) := by
  constructor
  · intro s hs
    induction hs with
    | init s h =>
      rw [SnapshotUnique, h]
      exact List.Pairwise.nil
    | cascade s fk cid oldA newA now h ih =>
      exact SnapshotUnique_trigger fk cid oldA newA now s ih
    | external s s' h heq ih =>
      rw [SnapshotUnique, heq]
      exact ih
  · intro items c f tbl i now now2
    rw [insertSnapshotOne, if_pos (any_insertSnapshotOne_self items c f tbl i now)]

/-- Witness for C3: the state after a coupons deactivation on the sample
    store is reachable and snapshot-unique, and a concrete duplicate insert
    is a no-op. -/
theorem C3_snapshot_unique_and_insert_idempotent_witness :
    SnapshotUnique (trigger_feature_toggle_cascade (some "coupons") (some 1) true false 0
      sampleStore).feature_deactivated_items ∧
    insertSnapshotOne (insertSnapshotOne [] 1 "coupons" "coupons" 9 0)
        1 "coupons" "coupons" 9 4 =
      insertSnapshotOne [] 1 "coupons" "coupons" 9 0 :=
  ⟨C3_snapshot_unique_and_insert_idempotent.1 _
      (Reachable.cascade sampleStore (some "coupons") (some 1) true false 0
        (Reachable.init sampleStore rfl)),
   C3_snapshot_unique_and_insert_idempotent.2 [] 1 "coupons" "coupons" 9 0 4⟩

/-- C10: (i) the cascade preserves the implicit tenant-consistency invariant
    of the snapshot table — every snapshot row's `item_id` identifies a
    record of that row's `company_id` — given primary-key uniqueness of the
    target collections' ids; (ii) under that invariant, the restoration
    UPDATEs, although they filter only by id and not by `company_id`, modify
    no record of any other tenant. -/
theorem C10_snapshot_tenant_consistency (s : Store) (fk : Option String)
    (cid : Option Nat) (oldA newA : Bool) (now c now2 : Nat)
    (hTC : TenantConsistent s) (h1 : NoDupIds s.coupons) (h2 : NoDupIds s.promotions)
    (h3 : NoDupDriverIds s.delivery_drivers) (h4 : NoDupIds s.tables) :
    TenantConsistent (handle_feature_toggle_cascade fk cid oldA newA now s) ∧
    ∀ f : String,
      (∀ i, ∀ hi : i < s.coupons.length, s.coupons[i].company_id ≠ c →
        ∀ hj : i < (reactivate f c now2 s).coupons.length,
          (reactivate f c now2 s).coupons[i] = s.coupons[i]) ∧
      (∀ i, ∀ hi : i < s.promotions.length, s.promotions[i].company_id ≠ c →
        ∀ hj : i < (reactivate f c now2 s).promotions.length,
          (reactivate f c now2 s).promotions[i] = s.promotions[i]) ∧
      (∀ i, ∀ hi : i < s.delivery_drivers.length, s.delivery_drivers[i].company_id ≠ c →
        ∀ hj : i < (reactivate f c now2 s).delivery_drivers.length,
          (reactivate f c now2 s).delivery_drivers[i] = s.delivery_drivers[i]) ∧
      (∀ i, ∀ hi : i < s.tables.length, s.tables[i].company_id ≠ c →
        ∀ hj : i < (reactivate f c now2 s).tables.length,
          (reactivate f c now2 s).tables[i] = s.tables[i]) := by
  refine ⟨TenantConsistent_handle fk cid oldA newA now s hTC h1 h2 h3 h4, ?_⟩
  intro f
  by_cases hf1 : f = "coupons"
  · subst hf1
    refine ⟨?_, ?_, ?_, ?_⟩
    · intro i hi hne hj
      have hnot : s.coupons[i].id ∉
          snapshotIds s.feature_deactivated_items c "coupons" "coupons" := by
        intro hmem
        obtain ⟨e, he, hk⟩ := (mem_snapshotIds_iff ..).mp hmem
        rw [snapshotKeyMatches_iff] at hk
        obtain ⟨hec, _, het, hei⟩ := hk
        have hcomp := ((hTC e he).1 het) s.coupons[i] (List.getElem_mem _) hei.symm
        rw [hec] at hcomp
        exact hne hcomp
      exact restoreRecs_getElem_of_not_mem s.coupons _ i hi hnot hj
    all_goals intro i hi hne hj; rfl
  by_cases hf2 : f = "promotions"
  · subst hf2
    refine ⟨?_, ?_, ?_, ?_⟩
    · intro i hi hne hj
      rfl
    · intro i hi hne hj
      have hnot : s.promotions[i].id ∉
          snapshotIds s.feature_deactivated_items c "promotions" "promotions" := by
        intro hmem
        obtain ⟨e, he, hk⟩ := (mem_snapshotIds_iff ..).mp hmem
        rw [snapshotKeyMatches_iff] at hk
        obtain ⟨hec, _, het, hei⟩ := hk
        have hcomp := ((hTC e he).2.1 het) s.promotions[i] (List.getElem_mem _) hei.symm
        rw [hec] at hcomp
        exact hne hcomp
      exact restoreRecs_getElem_of_not_mem s.promotions _ i hi hnot hj
    all_goals intro i hi hne hj; rfl
  by_cases hf3 : f = "drivers"
  · subst hf3
    refine ⟨?_, ?_, ?_, ?_⟩
    · intro i hi hne hj
      rfl
    · intro i hi hne hj
      rfl
    · intro i hi hne hj
      have hnot : s.delivery_drivers[i].id ∉
          snapshotIds s.feature_deactivated_items c "drivers" "delivery_drivers" := by
        intro hmem
        obtain ⟨e, he, hk⟩ := (mem_snapshotIds_iff ..).mp hmem
        rw [snapshotKeyMatches_iff] at hk
        obtain ⟨hec, _, het, hei⟩ := hk
        have hcomp := ((hTC e he).2.2.1 het) s.delivery_drivers[i]
          (List.getElem_mem _) hei.symm
        rw [hec] at hcomp
        exact hne hcomp
      exact restoreDrivers_getElem_of_not_mem s.delivery_drivers _ i hi hnot hj
    · intro i hi hne hj
      rfl
  by_cases hf4 : f = "tables"
  · subst hf4
    refine ⟨?_, ?_, ?_, ?_⟩
    · intro i hi hne hj
      rfl
    · intro i hi hne hj
      rfl
    · intro i hi hne hj
      rfl
    · intro i hi hne hj
      have hnot : s.tables[i].id ∉
          snapshotIds s.feature_deactivated_items c "tables" "tables" := by
        intro hmem
        obtain ⟨e, he, hk⟩ := (mem_snapshotIds_iff ..).mp hmem
        rw [snapshotKeyMatches_iff] at hk
        obtain ⟨hec, _, het, hei⟩ := hk
        have hcomp := ((hTC e he).2.2.2 het) s.tables[i] (List.getElem_mem _) hei.symm
        rw [hec] at hcomp
        exact hne hcomp
      exact restoreRecs_getElem_of_not_mem s.tables _ i hi hnot hj
  have hid : reactivate f c now2 s = s := handle_unregistered_react f c now2 s hf1 hf2 hf3 hf4
  refine ⟨?_, ?_, ?_, ?_⟩ <;>
    · intro i hi hne hj
      simp only [hid]

/-- Witness for C10: on the sample store the invariant holds after a coupons
    deactivation, and reactivating coupons for tenant 1 leaves tenant 2's
    coupon untouched. -/
theorem C10_snapshot_tenant_consistency_witness :
    TenantConsistent
      (handle_feature_toggle_cascade (some "coupons") (some 1) true false 0 sampleStore) ∧
    (reactivate "coupons" 1 0 sampleStore).coupons.get ⟨1, by decide⟩ =
      sampleStore.coupons.get ⟨1, by decide⟩ := by
  have h := C10_snapshot_tenant_consistency sampleStore (some "coupons") (some 1)
    true false 0 1 0
    (by intro e he; simp [sampleStore] at he)
    (by unfold NoDupIds; decide) (by unfold NoDupIds; decide)
    (by unfold NoDupDriverIds; decide) (by unfold NoDupIds; decide)
  exact ⟨h.1, (h.2 "coupons").1 1 (by decide) (by decide) (by decide)⟩

/-- Witness for C8 at the concrete key "loyalty" and a nonempty store. -/
theorem C8_unknown_feature_no_cascade_witness :
    handle_feature_toggle_cascade (some "loyalty") (some 1) true false 0
        ⟨[⟨7, 1, true, 3⟩], [], [], [], []⟩ =
      ⟨[⟨7, 1, true, 3⟩], [], [], [], []⟩ ∧
    handle_feature_toggle_cascade (some "loyalty") (some 1) false true 0
        ⟨[⟨7, 1, true, 3⟩], [], [], [], []⟩ =
      ⟨[⟨7, 1, true, 3⟩], [], [], [], []⟩ :=
  C8_unknown_feature_no_cascade "loyalty" 1 0 0 ⟨[⟨7, 1, true, 3⟩], [], [], [], []⟩
    (by decide) (by decide) (by decide) (by decide)
